import Mathlib

/-!
Shallow embedding of `src/service/logs/json.rs` (openobserve log-ingestion
front-end, row-oriented and columnar paths).

Modelling conventions:
* JSON values are the inductive `JsonValue`; a `serde_json::Map` is an
  association list (`Obj`) whose `insert` replaces the value at an existing
  key and otherwise appends.
* Machine integers (`i64` microsecond timestamps) are modelled as `Int`;
  `chrono::Duration::hours h` contributes `h * 3600000000` microseconds.
* Each `Utc::now()` taken inside the per-record loop is modelled by a clock
  `clk : Nat → Int` giving the instant for the iteration of record `i`
  (the source takes fresh instants inside one iteration, microseconds
  apart; claims and spec speak of one "now" per record). The seeding
  instant of `min_ts` (source line 88) is a separate parameter `now0`, and
  the columnar path's request instant (source line 245) is `ts`.
* External collaborators (functions living outside `src/`:
  `format_stream_name`, `is_ingester`, `is_deleting_stream`,
  `flatten_json_and_format_field`, `parse_timestamp_micro_from_value`,
  `get_upto_discard_error`, `stream_schema_exists`,
  `get_stream_partition_keys`, `get_stream_alerts`, `add_valid_record`,
  `infer_json_schema_from_iterator`, `try_merge`, the arrow `Decoder`,
  `db::schema::set`, and the chrono hour-key formatter) are fields of a
  `Collab` record; the theorems quantify over them.
* Side effects on stateful collaborators (`add_valid_record`, `write_file`,
  `evaluate_trigger`, the WAL write `write_for_schema`, `db::schema::set`)
  are recorded as an ordered transcript of `Event`s. Metrics-sink calls are
  pure observations and are not recorded.
* A Rust panic (`unwrap` on a non-object flatten result, `unreachable!`,
  `unwrap` on `db::schema::set`, indexing an empty column vector) is the
  `Outcome.panicked` result, paired with the events already performed; the
  `?` on body deserialization is `Outcome.errReturn`.
* The `zo_functions` feature (stream transforms) is compiled out, as in the
  default build of this file.
-/

inductive JsonValue where
  | null : JsonValue
  | bool (b : Bool) : JsonValue
  | num (n : Int) : JsonValue
  | str (s : String) : JsonValue
  | arr (xs : List JsonValue) : JsonValue
  | obj (kvs : List (String × JsonValue)) : JsonValue

/-- A flattened JSON object: the association list underlying a `serde_json::Map`. -/
abbrev Obj : Type := List (String × JsonValue)

def JsonValue.asObject : JsonValue → Option Obj
  | .obj kvs => some kvs
  | _ => none

/-- `Map::get`: first binding of the key, if any. -/
def objGet (o : Obj) (k : String) : Option JsonValue :=
  match o with
  | [] => none
  | (k', v) :: rest => if k' = k then some v else objGet rest k

/-- `Map::insert`: replace the value at an existing key, else append. -/
def objInsert (o : Obj) (k : String) (v : JsonValue) : Obj :=
  match o with
  | [] => [(k, v)]
  | (k', v') :: rest => if k' = k then (k, v) :: rest else (k', v') :: objInsert rest k v

inductive StreamType where
  | logs : StreamType
deriving DecidableEq, Repr

/-- Display form of `StreamType::Logs`, as used in the alert-map key. -/
def streamTypeStr : StreamType → String
  | .logs => "logs"

/-- `meta::ingestion::RecordStatus`: per-stream counters. -/
structure RecordStatus where
  successful : Nat
  failed : Nat
  error : String
deriving DecidableEq, Repr

/-- `meta::ingestion::StreamStatus`. -/
structure StreamStatus where
  name : String
  status : RecordStatus
deriving DecidableEq, Repr

/-- Opaque payload of `meta::alert::Trigger` (contents external to `src/`). -/
structure Trigger where
  id : Nat
deriving DecidableEq, Repr

/-- Opaque payload of `meta::alert::Alert`. -/
structure Alert where
  id : Nat
deriving DecidableEq, Repr

abbrev AlertsMap : Type := List (String × List Alert)

/-- The row-path buffer: `AHashMap<String, Vec<String>>`, partition key to serialized rows. -/
abbrev Buf : Type := List (String × List String)

/-- Arrow `DataType`, restricted to the shapes this pipeline distinguishes. -/
inductive ADataType where
  | int64 : ADataType
  | utf8 : ADataType
  | float64 : ADataType
  | boolean : ADataType
  | otherType (tag : Nat) : ADataType
deriving DecidableEq, Repr

structure AField where
  name : String
  dtype : ADataType
  nullable : Bool
deriving DecidableEq, Repr

/-- Arrow `Schema`: ordered fields plus string metadata. -/
structure ASchema where
  fields : List AField
  metadata : List (String × String)
deriving DecidableEq, Repr

abbrev SchemaMap : Type := List (String × ASchema)

def schemaMapGet (m : SchemaMap) (k : String) : Option ASchema :=
  match m with
  | [] => none
  | (k', v) :: rest => if k' = k then some v else schemaMapGet rest k

/-- HashMap-style insert for schema metadata: replace at an existing key, else append. -/
def metaInsert (m : List (String × String)) (k v : String) : List (String × String) :=
  match m with
  | [] => [(k, v)]
  | (k', v') :: rest => if k' = k then (k, v) :: rest else (k', v') :: metaInsert rest k v

/-- A typed arrow column; this pipeline only ever builds and inspects
`Int64` columns, so other arrays carry just their data type, an opaque
payload tag, and their length. -/
inductive ACol where
  | int64 (vals : List Int) : ACol
  | otherCol (dtype : ADataType) (tag : Nat) (len : Nat) : ACol
deriving DecidableEq, Repr

/-- Arrow `RecordBatch`: schema, columns, row count. -/
structure ABatch where
  schema : ASchema
  columns : List ACol
  numRows : Nat
deriving DecidableEq, Repr

/-- Result of `stream_schema_exists`: the two flags this pipeline reads. -/
structure StreamSchemaChk where
  has_fields : Bool
  has_partition_keys : Bool
deriving DecidableEq, Repr

/-- `StreamMeta` handed to `add_valid_record` (see `service::logs::StreamMeta`). -/
structure StreamMeta where
  org_id : String
  stream_name : String
  partition_keys : List String
  stream_alerts_map : AlertsMap

/-- Result of one `add_valid_record` call: the mutated schema map, record
status and buffer, plus the optional trigger it returned. -/
structure AvrResult where
  schemaMap : SchemaMap
  status : RecordStatus
  buf : Buf
  trigger : Option Trigger

/-- Transcript entry: one call to a stateful external collaborator, with the
arguments the source passes (and, for `add_valid_record`, the returned
trigger). -/
inductive Event where
  | addValidRecordCall (meta : StreamMeta) (rec : Obj) (ret : Option Trigger) : Event
  | writeFile (buf : Buf) (threadId : Nat) (orgId : String) (streamName : String)
      (ty : StreamType) : Event
  | evaluateTrigger (t : Option Trigger) (alerts : AlertsMap) : Event
  | writeForSchema (threadId : Nat) (orgId : String) (streamName : String) (ty : StreamType)
      (hourKey : String) (memMode : Bool) (schema : ASchema) (batch : ABatch)
      (bodySize : Nat) : Event
  | schemaSet (orgId : String) (streamName : String) (ty : StreamType) (schema : ASchema)
      (minTs : Option Int) (isUpdate : Bool) : Event

/-- How a request terminates: a normal `HttpResponse`, the `?`-propagated
deserialization error, or a panic. -/
structure Resp where
  http_status : Nat
  payload_code : Nat
  payload_msg : String
  payload_statuses : List StreamStatus
deriving DecidableEq, Repr

inductive Outcome where
  | ok (r : Resp) : Outcome
  | errReturn : Outcome
  | panicked : Outcome

/-- Configuration values read from `CONFIG` by this pipeline. -/
structure Config where
  simple_path : Bool
  column_timestamp : String
  ingest_allowed_upto : Int
  wal_memory_mode_enabled : Bool

/-- The external collaborators, as pure functions (see module docstring). -/
structure Collab where
  formatStreamName : String → String
  isIngester : Bool
  isDeletingStream : String → String → StreamType → Bool
  flatten : JsonValue → JsonValue
  parseTimestampMicroFromValue : JsonValue → Except String Int
  uptoDiscardError : String
  streamSchemaExists : String → String → StreamType → SchemaMap → StreamSchemaChk × SchemaMap
  getStreamPartitionKeys : String → SchemaMap → List String
  getStreamAlerts : String → AlertsMap → AlertsMap
  addValidRecord : StreamMeta → SchemaMap → RecordStatus → Buf → Obj → AvrResult
  inferSchema : List JsonValue → Except Unit ASchema
  tryMerge : List ASchema → Except String ASchema
  decodeBatch : ASchema → Nat → List JsonValue → Except Unit (Option ABatch)
  schemaSet : String → String → StreamType → ASchema → Option Int → Bool → Except String Unit
  hourKeyOfNow : String

/-- The `(Utc::now() + Duration::hours(h)).timestamp_micros()` offset. -/
def hoursMicros (h : Int) : Int := h * 3600000000

/-- Per-request mutable state of `process_as_json`'s record loop, plus the
transcript of collaborator calls performed so far. -/
structure RowState where
  min_ts : Int
  stream_schema_map : SchemaMap
  stream_status : StreamStatus
  trigger : Option Trigger
  buf : Buf
  events : List Event

/-- Source lines 160-170: resolve the record's event time — parse the
canonical timestamp field if present, else default to the iteration's now. -/
def resolvedTs (c : Collab) (cfg : Config) (local_val : Obj) (nowi : Int) : Except String Int :=
  match objGet local_val cfg.column_timestamp with
  | some v => c.parseTimestampMicroFromValue v
  | none => .ok nowi

/-- Source line 172: `Utc::now() + Duration::hours(0 - ingest_allowed_upto)`. -/
def earliestTime (cfg : Config) (nowi : Int) : Int :=
  nowi + hoursMicros (0 - cfg.ingest_allowed_upto)

/-- Record-level failure: `failed += 1`, `error = e` (successful untouched). -/
def statusFailed (ss : StreamStatus) (e : String) : StreamStatus :=
  { ss with status := { ss.status with failed := ss.status.failed + 1, error := e } }

/-- Source lines 178-202, the accept branch: update `min_ts`, write the
resolved time back into the record, call `add_valid_record`, and keep its
trigger when it returned one (last write wins). -/
def acceptRecord (c : Collab) (cfg : Config) (org_id stream_name : String)
    (partition_keys : List String) (stream_alerts_map : AlertsMap)
    (timestamp : Int) (local_val : Obj) (st : RowState) : RowState :=
  let min_ts := if timestamp < st.min_ts then timestamp else st.min_ts
  let local_val2 := objInsert local_val cfg.column_timestamp (.num timestamp)
  let meta : StreamMeta :=
    ⟨org_id, stream_name, partition_keys, stream_alerts_map⟩
  let r := c.addValidRecord meta st.stream_schema_map st.stream_status.status st.buf local_val2
  { min_ts := min_ts
    stream_schema_map := r.schemaMap
    stream_status := { st.stream_status with status := r.status }
    trigger := if r.trigger.isSome then r.trigger else st.trigger
    buf := r.buf
    events := st.events ++ [.addValidRecordCall meta local_val2 r.trigger] }

/-- One iteration of the `for item in body.iter()` loop (source lines
135-203; the `zo_functions` transform block is compiled out). `.error`
carries the transcript at the point of the `as_object_mut().unwrap()` panic. -/
def processRecord (c : Collab) (cfg : Config) (org_id stream_name : String)
    (partition_keys : List String) (stream_alerts_map : AlertsMap)
    (nowi : Int) (st : RowState) (item : JsonValue) : Except (List Event) RowState :=
  match (c.flatten item).asObject with
  | none => .error st.events
  | some local_val =>
    match resolvedTs c cfg local_val nowi with
    | .error e => .ok { st with stream_status := statusFailed st.stream_status e }
    | .ok timestamp =>
      if timestamp < earliestTime cfg nowi then
        .ok { st with stream_status := statusFailed st.stream_status c.uptoDiscardError }
      else
        .ok (acceptRecord c cfg org_id stream_name partition_keys stream_alerts_map
              timestamp local_val st)

/-- The record loop, indexed so record `i` sees the instant `clk i`. -/
def rowLoop (c : Collab) (cfg : Config) (org_id stream_name : String)
    (partition_keys : List String) (stream_alerts_map : AlertsMap) (clk : Nat → Int) :
    Nat → RowState → List JsonValue → Except (List Event) RowState
  | _, st, [] => .ok st
  | i, st, item :: rest =>
    match processRecord c cfg org_id stream_name partition_keys stream_alerts_map (clk i)
        st item with
    | .error evs => .error evs
    | .ok st' => rowLoop c cfg org_id stream_name partition_keys stream_alerts_map clk
        (i + 1) st' rest

/-- Source lines 115-127: `stream_schema_exists` on an empty per-request
cache, then partition keys iff the stream declares them. The lookup is a
pure function here, so re-applying it in each projection is sound. -/
def pksFor (c : Collab) (org_id stream_name : String) : List String :=
  let p := c.streamSchemaExists org_id stream_name .logs []
  if p.1.has_partition_keys then c.getStreamPartitionKeys stream_name p.2 else []

/-- Source lines 129-132: the alert-map key `org/logs/stream` and the fetch. -/
def alertsFor (c : Collab) (org_id stream_name : String) : AlertsMap :=
  c.getStreamAlerts (org_id ++ "/" ++ streamTypeStr .logs ++ "/" ++ stream_name) []

/-- State entering the loop: `min_ts` seeded at `now0 + hours(upto)` (line
87-88), the schema map as mutated by `stream_schema_exists` (line 115), a
zeroed `StreamStatus` named by the `stream_name` binder (lines 95-102), no
trigger, empty buffer, empty transcript. -/
def initRowState (c : Collab) (cfg : Config) (now0 : Int) (stream_name org_id : String) :
    RowState :=
  { min_ts := now0 + hoursMicros cfg.ingest_allowed_upto
    stream_schema_map := (c.streamSchemaExists org_id stream_name .logs []).2
    stream_status := ⟨stream_name, ⟨0, 0, ""⟩⟩
    trigger := none
    buf := []
    events := [] }

/-- `process_as_json` (source lines 80-235). NOTE the binder order
`(stream_name, org_id)`: it is the source's parameter order, while the call
site in `ingest` passes `(org_id, stream_name)` positionally. After the
loop: `write_file(buf, thread_id, org_id, stream_name, Logs)`, then
`evaluate_trigger(trigger, stream_alerts_map)`, then the 200 response with
the single stream status. -/
def processAsJson (c : Collab) (cfg : Config) (clk : Nat → Int) (now0 : Int)
    (stream_name org_id : String) (body : List JsonValue) (thread_id : Nat) :
    List Event × Outcome :=
  match rowLoop c cfg org_id stream_name (pksFor c org_id stream_name)
      (alertsFor c org_id stream_name) clk 0
      (initRowState c cfg now0 stream_name org_id) body with
  | .error evs => (evs, .panicked)
  | .ok st =>
    (st.events ++
      [.writeFile st.buf thread_id org_id stream_name .logs,
       .evaluateTrigger st.trigger (alertsFor c org_id stream_name)],
     .ok ⟨200, 200, "", [st.stream_status]⟩)

/-- Source lines 268-290: pick the working schema. No existing entry or an
empty existing schema adopts the inferred one; otherwise `try_merge`
decides, and on success the EXISTING schema (the merge result is discarded
by `Ok(_) =>`) is kept; on conflict the request ends with the
`Error matching schema` response. -/
def chooseSchema (c : Collab) (m : SchemaMap) (stream_name : String) (inferred : ASchema) :
    Except Resp ASchema :=
  match schemaMapGet m stream_name with
  | some existing =>
    if existing.fields.isEmpty then .ok inferred
    else
      match c.tryMerge [existing, inferred] with
      | .ok _ => .ok existing
      | .error e =>
        .error ⟨500, 400, "Error matching schema for [" ++ stream_name ++ "] : " ++ e, []⟩
  | none => .ok inferred

/-- Source lines 292-298: force-insert the canonical timestamp field at
position zero as a nullable Int64 when the schema does not declare it. -/
def insertTsField (cfg : Config) (s : ASchema) : ASchema :=
  if s.fields.any (fun f => f.name = cfg.column_timestamp) then s
  else { s with fields := ⟨cfg.column_timestamp, .int64, true⟩ :: s.fields }

/-- `arrow::util::bit_util::round_upto_multiple_of_64`. -/
def roundUptoMultipleOf64 (n : Nat) : Nat := ((n + 63) / 64) * 64

/-- The arrow data type of a column. -/
def colDtype : ACol → ADataType
  | .int64 _ => .int64
  | .otherCol d _ _ => d

/-- The length (row count) of a column. -/
def colLen : ACol → Nat
  | .int64 vals => vals.length
  | .otherCol _ _ n => n

/-- The validation performed by `RecordBatch::try_new`: one column per
schema field, each column's data type equal to its field's declared type,
and all columns of equal length. -/
def batchConforms (schema : ASchema) (cols : List ACol) : Bool :=
  schema.fields.length == cols.length &&
  (cols.zip schema.fields).all (fun pr => colDtype pr.1 == pr.2.dtype) &&
  cols.all (fun col => colLen col == (cols.head?.map colLen).getD 0)

/-- `RecordBatch::try_new(schema, columns)`: `none` is the `Err` that the
source's `.unwrap()` turns into a panic — in particular when column zero
(always an `Int64Array` by the time `try_new` runs, source line 323) does
not match a non-Int64 field at schema position zero. -/
def tryNewBatch (schema : ASchema) (cols : List ACol) : Option ABatch :=
  if batchConforms schema cols then
    some ⟨schema, cols, (cols.head?.map colLen).getD 0⟩
  else none

/-- Source lines 322-325, the successful case: the decoded columns with
column zero overwritten by `Int64Array::from_value(ts, num_rows)`, over the
working schema. `tryNewBatch` returns exactly this batch when its
validation succeeds (see `tryNewBatch_eq_replaced`). -/
def replacedBatch (ts : Int) (schema : ASchema) (batch : ABatch) : ABatch :=
  { schema := schema
    columns := batch.columns.set 0 (.int64 (List.replicate batch.numRows ts))
    numRows := batch.numRows }

/-- Schema persisted on first fields: metadata gains `created_at = ts`
(source lines 338-350). -/
def withCreatedAt (s : ASchema) (ts : Int) : ASchema :=
  { s with metadata := metaInsert s.metadata "created_at" (toString ts) }

/-- `process_as_arrow` (source lines 237-373). `ts` is the request instant
(line 245). Indexing `final_arrays[0]` panics on an empty column vector
(line 323), and `RecordBatch::try_new(...).unwrap()` (line 325) panics when
the rebuilt columns fail try_new's validation — both BEFORE the WAL write.
The WAL write (`get_or_create_arrow` + `write_for_schema`, lines 328-336)
precedes the conditional schema persistence (lines 338-351), whose `Err`
is `.unwrap()`ed, i.e. panics after the write. -/
def processAsArrow (c : Collab) (cfg : Config) (ts : Int) (org_id stream_name : String)
    (body : List JsonValue) (body_size : Nat) (thread_id : Nat) : List Event × Outcome :=
  let p := c.streamSchemaExists org_id stream_name .logs []
  match c.inferSchema body with
  | .error _ =>
    ([], .ok ⟨500, 400, "Could not infer schema for [" ++ stream_name ++ "]", []⟩)
  | .ok inferred_schema =>
    match chooseSchema c p.2 stream_name inferred_schema with
    | .error resp => ([], .ok resp)
    | .ok schema0 =>
      let schema := insertTsField cfg schema0
      let batch_size := roundUptoMultipleOf64 body.length
      match c.decodeBatch schema batch_size body with
      | .error _ =>
        ([], .ok ⟨500, 400, "Could not process request for [" ++ stream_name ++ "]", []⟩)
      | .ok none => ([], .panicked)
      | .ok (some batch) =>
        if batch.columns.isEmpty then ([], .panicked)
        else
          match tryNewBatch schema
              (batch.columns.set 0 (.int64 (List.replicate batch.numRows ts))) with
          | none => ([], .panicked)
          | some fb =>
            let wevs : List Event :=
              [.writeForSchema thread_id org_id stream_name .logs c.hourKeyOfNow
                cfg.wal_memory_mode_enabled schema fb body_size]
            if p.1.has_fields then (wevs, .ok ⟨200, 200, "", []⟩)
            else
              let schemaMeta := withCreatedAt schema ts
              let evs := wevs ++
                [.schemaSet org_id stream_name .logs schemaMeta (some ts) false]
              match c.schemaSet org_id stream_name .logs schemaMeta (some ts) false with
              | .error _ => (evs, .panicked)
              | .ok _ => (evs, .ok ⟨200, 200, "", []⟩)

/-- `ingest` (source lines 41-78): normalize the stream name, gate on
ingester role and stream deletion, deserialize the body (`none` models a
`serde` failure, which the `?` turns into an `Err` return), then branch on
`CONFIG.common.simple_path`. NOTE the row-path call passes
`(org_id, stream_name)` positionally into `process_as_json`, whose
parameters are declared in the order `(stream_name, org_id)`. -/
def ingest (c : Collab) (cfg : Config) (clk : Nat → Int) (now0 : Int) (ts : Int)
    (org_id in_stream_name : String) (body : Option (List JsonValue)) (body_size : Nat)
    (thread_id : Nat) : List Event × Outcome :=
  let stream_name := c.formatStreamName in_stream_name
  if !c.isIngester then
    ([], .ok ⟨500, 500, "not an ingester", []⟩)
  else if c.isDeletingStream org_id stream_name .logs then
    ([], .ok ⟨500, 500, "stream [" ++ stream_name ++ "] is being deleted", []⟩)
  else
    match body with
    | none => ([], .errReturn)
    | some body =>
      if cfg.simple_path then
        processAsArrow c cfg ts org_id stream_name body body_size thread_id
      else
        processAsJson c cfg clk now0 org_id stream_name body thread_id

/-- A schema-conformant demo column for one field: Int64 fields decode to a
column of sevens, anything else to an opaque column of the field's type. -/
def demoColOf (f : AField) (n : Nat) : ACol :=
  match f.dtype with
  | .int64 => .int64 (List.replicate n 7)
  | d => .otherCol d 0 n

/-- A concrete configuration for witnesses: row-oriented mode, canonical
timestamp field `_timestamp`, a one-hour acceptance window. -/
def demoCfg : Config :=
  { simple_path := false
    column_timestamp := "_timestamp"
    ingest_allowed_upto := 1
    wal_memory_mode_enabled := false }

/-- Simple concrete collaborators for witnesses: identity normalization and
flattening, numeric timestamps parse to themselves, schema lookups find
nothing, `add_valid_record` serializes into the `"default"` partition,
bumps `successful` and returns no trigger. -/
def demoCollab : Collab :=
  { formatStreamName := fun s => s
    isIngester := true
    isDeletingStream := fun _ _ _ => false
    flatten := fun v => v
    parseTimestampMicroFromValue := fun v =>
      match v with
      | .num n => .ok n
      | _ => .error "parse timestamp error"
    uptoDiscardError := "too old data, only last 1 hours data can be ingested"
    streamSchemaExists := fun _ _ _ m => (⟨false, false⟩, m)
    getStreamPartitionKeys := fun _ _ => []
    getStreamAlerts := fun _ m => m
    addValidRecord := fun _ m rs b _ =>
      ⟨m, { rs with successful := rs.successful + 1 }, b ++ [("default", ["row"])], none⟩
    inferSchema := fun _ => .ok ⟨[], []⟩
    tryMerge := fun _ => .ok ⟨[], []⟩
    decodeBatch := fun s _ body =>
      .ok (some ⟨s, s.fields.map (fun f => demoColOf f body.length), body.length⟩)
    schemaSet := fun _ _ _ _ _ _ => .ok ()
    hourKeyOfNow := "2026_10_12_00" }

/-- Precondition ruling out the `as_object_mut().unwrap()` panic: flattening
every record of the body yields a JSON object (the contract of the external
`flatten_json_and_format_field`). -/
def allFlattenObjects (c : Collab) (body : List JsonValue) : Bool :=
  body.all (fun item => ((c.flatten item).asObject).isSome)

def isAvrEvent : Event → Bool
  | .addValidRecordCall _ _ _ => true
  | _ => false

/-- The trigger candidates returned by the `add_valid_record` calls of a
transcript, in call order. -/
def avrTriggers (evs : List Event) : List (Option Trigger) :=
  evs.filterMap (fun e =>
    match e with
    | .addValidRecordCall _ _ r => some r
    | _ => none)

/-- The resolved event times of the records the loop accepted, read off the
canonical timestamp field of the records handed to `add_valid_record`. -/
def acceptedTsOf (cfg : Config) (evs : List Event) : List Int :=
  evs.filterMap (fun e =>
    match e with
    | .addValidRecordCall _ rec _ =>
      match objGet rec cfg.column_timestamp with
      | some (.num t) => some t
      | _ => none
    | _ => none)

/-- Last-write-wins accumulation of trigger candidates (spec wording: the
last satisfying evaluation observed during the request wins). -/
def lwwFold (t : Option Trigger) (cands : List (Option Trigger)) : Option Trigger :=
  cands.foldl (fun acc cand => if cand.isSome then cand else acc) t

/-- The loop's running-minimum accumulation, seeded at `m`. -/
def minFold (m : Int) (l : List Int) : Int :=
  l.foldl (fun acc t => if t < acc then t else acc) m

def countEvalTrigger (evs : List Event) : Nat :=
  evs.countP (fun e =>
    match e with
    | .evaluateTrigger _ _ => true
    | _ => false)

/-- Projection of a finished loop run to its `min_ts`. -/
def loopMinTs (r : Except (List Event) RowState) : Option Int :=
  match r with
  | .ok st => some st.min_ts
  | .error _ => none

/-- Projection of a finished loop run to the accepted event times. -/
def loopAcceptedTs (cfg : Config) (r : Except (List Event) RowState) : Option (List Int) :=
  match r with
  | .ok st => some (acceptedTsOf cfg st.events)
  | .error _ => none

/-- An existing stream schema without the canonical timestamp field. -/
def exSchemaA : ASchema := ⟨[⟨"a", .int64, false⟩], []⟩

/-- An existing stream schema that already declares the canonical timestamp field. -/
def exSchemaTs : ASchema := ⟨[⟨"_timestamp", .int64, true⟩, ⟨"a", .utf8, true⟩], []⟩

/-- Collaborators for a merge-conflict witness: the stream has an existing
non-empty schema and `try_merge` reports a conflict. -/
def collabC3 : Collab :=
  { demoCollab with
    streamSchemaExists := fun _ s _ m => (⟨true, false⟩, (s, exSchemaA) :: m)
    tryMerge := fun _ => .error "incompatible data types" }

/-- Collaborators for a persistence-failure witness: `db::schema::set` fails. -/
def collabC4 : Collab :=
  { demoCollab with schemaSet := fun _ _ _ _ _ _ => .error "db failure" }

/-- Collaborators for trigger witnesses: `add_valid_record` fires a trigger
whose id is the record's `alert` field, when present. -/
def collabC5 : Collab :=
  { demoCollab with
    addValidRecord := fun _ m rs b rec =>
      ⟨m, { rs with successful := rs.successful + 1 }, b,
        match objGet rec "alert" with
        | some (.num n) => some ⟨n.toNat⟩
        | _ => none⟩ }

/-- Collaborators for the existing-schema witness: the stream has an
existing schema declaring the timestamp field, and the merge succeeds. -/
def collabC6 : Collab :=
  { demoCollab with
    streamSchemaExists := fun _ s _ m => (⟨true, false⟩, (s, exSchemaTs) :: m) }

lemma objGet_objInsert_self (o : Obj) (k : String) (v : JsonValue) :
    objGet (objInsert o k v) k = some v := by
  induction o with
  | nil => simp [objInsert, objGet]
  | cons hd tl ih =>
    by_cases h : hd.1 = k
    · simp [objInsert, objGet, h]
    · simpa [objInsert, objGet, h] using ih

/-- Master invariant of the record loop: under the no-panic precondition it
returns normally; it only ever appends `add_valid_record` events; the final
trigger is the last-write-wins fold of the returned candidates over the
initial trigger; and the final `min_ts` is the running-minimum fold of the
accepted event times over the initial `min_ts`. The stream-status name is
never touched by the loop. -/
theorem rowLoop_spec (c : Collab) (cfg : Config) (org_id stream_name : String)
    (pks : List String) (alerts : AlertsMap) (clk : Nat → Int) :
    ∀ (body : List JsonValue) (i : Nat) (st : RowState),
      allFlattenObjects c body = true →
      ∃ (st' : RowState) (Δ : List Event),
        rowLoop c cfg org_id stream_name pks alerts clk i st body = .ok st' ∧
        st'.events = st.events ++ Δ ∧
        (∀ e ∈ Δ, isAvrEvent e = true) ∧
        st'.trigger = lwwFold st.trigger (avrTriggers Δ) ∧
        st'.min_ts = minFold st.min_ts (acceptedTsOf cfg Δ) ∧
        st'.stream_status.name = st.stream_status.name := by
  intro body
  induction body with
  | nil =>
    intro i st _
    exact ⟨st, [], by simp [rowLoop], by simp, by simp, by simp [lwwFold, avrTriggers],
      by simp [minFold, acceptedTsOf], rfl⟩
  | cons item rest ih =>
    intro i st hall
    have hsplit : ((c.flatten item).asObject).isSome = true ∧
        allFlattenObjects c rest = true := by
      simpa [allFlattenObjects, List.all_cons, Bool.and_eq_true] using hall
    obtain ⟨local_val, hobj⟩ := Option.isSome_iff_exists.mp hsplit.1
    have hall' := hsplit.2
    rcases hts : resolvedTs c cfg local_val (clk i) with e | timestamp
    · -- timestamp parse failure: record dropped, counters bumped, no event
      obtain ⟨st', Δ, hrun, hev, havr, htr, hmin, hname⟩ := ih (i + 1)
        { st with stream_status := statusFailed st.stream_status e } hall'
      refine ⟨st', Δ, ?_, ?_, havr, ?_, ?_, ?_⟩
      · simpa [rowLoop, processRecord, hobj, hts] using hrun
      · simpa using hev
      · simpa using htr
      · simpa using hmin
      · simpa [statusFailed] using hname
    · by_cases hlt : timestamp < earliestTime cfg (clk i)
      · -- stale record: discarded with the upto-discard error, no event
        obtain ⟨st', Δ, hrun, hev, havr, htr, hmin, hname⟩ := ih (i + 1)
          { st with stream_status := statusFailed st.stream_status c.uptoDiscardError } hall'
        refine ⟨st', Δ, ?_, ?_, havr, ?_, ?_, ?_⟩
        · simpa [rowLoop, processRecord, hobj, hts, hlt] using hrun
        · simpa using hev
        · simpa using htr
        · simpa using hmin
        · simpa [statusFailed] using hname
      · -- accepted record: min_ts update, timestamp injection, avr call
        obtain ⟨st', Δ, hrun, hev, havr, htr, hmin, hname⟩ := ih (i + 1)
          (acceptRecord c cfg org_id stream_name pks alerts timestamp local_val st) hall'
        refine ⟨st',
          Event.addValidRecordCall ⟨org_id, stream_name, pks, alerts⟩
            (objInsert local_val cfg.column_timestamp (.num timestamp))
            (c.addValidRecord ⟨org_id, stream_name, pks, alerts⟩ st.stream_schema_map
              st.stream_status.status st.buf
              (objInsert local_val cfg.column_timestamp (.num timestamp))).trigger :: Δ,
          ?_, ?_, ?_, ?_, ?_, ?_⟩
        · simpa [rowLoop, processRecord, hobj, hts, hlt] using hrun
        · rw [hev]; simp [acceptRecord]
        · intro e he
          rcases List.mem_cons.mp he with h | h
          · subst h; rfl
          · exact havr e h
        · rw [htr]; simp [acceptRecord, avrTriggers, lwwFold]
        · rw [hmin]; simp [acceptRecord, acceptedTsOf, minFold, objGet_objInsert_self]
        · simpa [acceptRecord] using hname

lemma earliestTime_eq (cfg : Config) (nowi : Int) :
    earliestTime cfg nowi = nowi - cfg.ingest_allowed_upto * 3600000000 := by
  unfold earliestTime hoursMicros; ring

lemma countEvalTrigger_eq_zero {evs : List Event} (h : ∀ e ∈ evs, isAvrEvent e = true) :
    countEvalTrigger evs = 0 := by
  unfold countEvalTrigger
  rw [List.countP_eq_zero]
  intro e he
  have := h e he
  cases e <;> simp_all [isAvrEvent]

lemma head?_set_zero {α : Type} (l : List α) (x : α) (h : l.isEmpty = false) :
    (l.set 0 x).head? = some x := by
  cases l with
  | nil => simp at h
  | cons a t => rfl

/-- When the columns are nonempty and `try_new`'s validation succeeds, the
batch it builds is exactly `replacedBatch`: same schema, column zero
replaced, and the row count of the original batch (read off the replaced
first column). -/
lemma tryNewBatch_eq_replaced (ts : Int) (schema : ASchema) (batch : ABatch)
    (hcols : batch.columns.isEmpty = false)
    (hconf : batchConforms schema
      (batch.columns.set 0 (.int64 (List.replicate batch.numRows ts))) = true) :
    tryNewBatch schema (batch.columns.set 0 (.int64 (List.replicate batch.numRows ts))) =
      some (replacedBatch ts schema batch) := by
  have h := head?_set_zero batch.columns (ACol.int64 (List.replicate batch.numRows ts)) hcols
  simp [tryNewBatch, replacedBatch, hconf, h, colLen]

/-- C1 (code bug): in the row path, the durable-buffer handoff does NOT
carry the request's actual organization and stream. `ingest` passes
`(org_id, stream_name)` positionally into `process_as_json`, whose
parameters are declared `(stream_name, org_id)`, so `write_file` receives
the normalized stream name in the organization slot and the organization
in the stream slot. Concretely: ingesting to organization `org1`, stream
`stream1`, the `write_file` call is tagged org `stream1` / stream `org1`
(thread id and the Logs kind are correct). -/
theorem c1_write_file_labels_swapped :
    ingest demoCollab demoCfg (fun _ => 10000000000) 10000000000 10000000000
      "org1" "stream1" (some []) 0 7
      = ([.writeFile [] 7 "stream1" "org1" .logs, .evaluateTrigger none []],
         .ok ⟨200, 200, "", [⟨"org1", ⟨0, 0, ""⟩⟩]⟩) := rfl

/-- C2: in the row-path record loop, a record whose resolved event time is
strictly below `now − ingest_allowed_upto` is rejected — the failed counter
is incremented, the discard error becomes the stream's last error, and the
state (buffer included) is otherwise untouched, with no
`add_valid_record` call — while a record whose resolved event time equals
the bound exactly is accepted and handed to `add_valid_record` (boundary
inclusive). -/
theorem c2_acceptance_window (c : Collab) (cfg : Config) (org_id stream_name : String)
    (pks : List String) (alerts : AlertsMap) (nowi : Int) (st : RowState)
    (item : JsonValue) (local_val : Obj) (ts : Int)
    (hobj : (c.flatten item).asObject = some local_val)
    (hts : resolvedTs c cfg local_val nowi = .ok ts) :
    (ts < nowi - cfg.ingest_allowed_upto * 3600000000 →
      processRecord c cfg org_id stream_name pks alerts nowi st item =
        .ok { st with stream_status := statusFailed st.stream_status c.uptoDiscardError }) ∧
    (ts = nowi - cfg.ingest_allowed_upto * 3600000000 →
      processRecord c cfg org_id stream_name pks alerts nowi st item =
        .ok (acceptRecord c cfg org_id stream_name pks alerts ts local_val st)) := by
  constructor
  · intro h
    have hlt : ts < earliestTime cfg nowi := by rw [earliestTime_eq]; exact h
    simp [processRecord, hobj, hts, hlt]
  · intro h
    have hlt : ¬ ts < earliestTime cfg nowi := by rw [earliestTime_eq]; omega
    simp [processRecord, hobj, hts, hlt]

/-- Witness for C2 at `now = 10^10` and a one-hour window (bound
`6.4·10^9`): a record stamped one microsecond below the bound is rejected
with the discard error, and a record stamped exactly at the bound is
accepted and handed to `add_valid_record`. -/
theorem c2_acceptance_window_witness :
    (processRecord demoCollab demoCfg "org1" "stream1" [] [] 10000000000
        (initRowState demoCollab demoCfg 10000000000 "stream1" "org1")
        (.obj [("_timestamp", .num 6399999999)]) =
      .ok { initRowState demoCollab demoCfg 10000000000 "stream1" "org1" with
              stream_status :=
                statusFailed
                  (initRowState demoCollab demoCfg 10000000000 "stream1" "org1").stream_status
                  demoCollab.uptoDiscardError }) ∧
    (processRecord demoCollab demoCfg "org1" "stream1" [] [] 10000000000
        (initRowState demoCollab demoCfg 10000000000 "stream1" "org1")
        (.obj [("_timestamp", .num 6400000000)]) =
      .ok (acceptRecord demoCollab demoCfg "org1" "stream1" [] [] 6400000000
            [("_timestamp", .num 6400000000)]
            (initRowState demoCollab demoCfg 10000000000 "stream1" "org1"))) :=
  ⟨(c2_acceptance_window demoCollab demoCfg "org1" "stream1" [] [] 10000000000
      (initRowState demoCollab demoCfg 10000000000 "stream1" "org1")
      (.obj [("_timestamp", .num 6399999999)]) [("_timestamp", .num 6399999999)]
      6399999999 rfl rfl).1 (by decide),
   (c2_acceptance_window demoCollab demoCfg "org1" "stream1" [] [] 10000000000
      (initRowState demoCollab demoCfg 10000000000 "stream1" "org1")
      (.obj [("_timestamp", .num 6400000000)]) [("_timestamp", .num 6400000000)]
      6400000000 rfl rfl).2 (by decide)⟩

/-- C9: the row path has no upper-bound (future-dated) rejection: any record
whose resolved event time is at least `now − ingest_allowed_upto` —
arbitrarily far in the future included — takes the accept branch, has the
resolved time written back under the canonical timestamp field (overwriting
whatever was there), and is passed on to `add_valid_record`. -/
theorem c9_no_future_rejection (c : Collab) (cfg : Config) (org_id stream_name : String)
    (pks : List String) (alerts : AlertsMap) (nowi : Int) (st : RowState)
    (item : JsonValue) (local_val : Obj) (ts : Int)
    (hobj : (c.flatten item).asObject = some local_val)
    (hts : resolvedTs c cfg local_val nowi = .ok ts)
    (hge : nowi - cfg.ingest_allowed_upto * 3600000000 ≤ ts) :
    processRecord c cfg org_id stream_name pks alerts nowi st item =
      .ok (acceptRecord c cfg org_id stream_name pks alerts ts local_val st) ∧
    objGet (objInsert local_val cfg.column_timestamp (.num ts)) cfg.column_timestamp =
      some (.num ts) ∧
    (acceptRecord c cfg org_id stream_name pks alerts ts local_val st).events =
      st.events ++
        [.addValidRecordCall ⟨org_id, stream_name, pks, alerts⟩
          (objInsert local_val cfg.column_timestamp (.num ts))
          (c.addValidRecord ⟨org_id, stream_name, pks, alerts⟩ st.stream_schema_map
            st.stream_status.status st.buf
            (objInsert local_val cfg.column_timestamp (.num ts))).trigger] := by
  have hlt : ¬ ts < earliestTime cfg nowi := by rw [earliestTime_eq]; omega
  refine ⟨by simp [processRecord, hobj, hts, hlt], objGet_objInsert_self .., ?_⟩
  simp [acceptRecord]

/-- Witness for C9: with `now = 10^10` and a one-hour window, a record
stamped `10^18` microseconds (decades in the future) is accepted, its
canonical timestamp field holds the resolved time, and it reaches
`add_valid_record`. -/
theorem c9_no_future_rejection_witness :
    processRecord demoCollab demoCfg "org1" "stream1" [] [] 10000000000
        (initRowState demoCollab demoCfg 10000000000 "stream1" "org1")
        (.obj [("_timestamp", .num 1000000000000000000)]) =
      .ok (acceptRecord demoCollab demoCfg "org1" "stream1" [] [] 1000000000000000000
            [("_timestamp", .num 1000000000000000000)]
            (initRowState demoCollab demoCfg 10000000000 "stream1" "org1")) ∧
    objGet (objInsert [("_timestamp", .num 1000000000000000000)] demoCfg.column_timestamp
        (.num 1000000000000000000)) demoCfg.column_timestamp =
      some (.num 1000000000000000000) ∧
    (acceptRecord demoCollab demoCfg "org1" "stream1" [] [] 1000000000000000000
        [("_timestamp", .num 1000000000000000000)]
        (initRowState demoCollab demoCfg 10000000000 "stream1" "org1")).events =
      (initRowState demoCollab demoCfg 10000000000 "stream1" "org1").events ++
        [.addValidRecordCall ⟨"org1", "stream1", [], []⟩
          (objInsert [("_timestamp", .num 1000000000000000000)] demoCfg.column_timestamp
            (.num 1000000000000000000))
          (demoCollab.addValidRecord ⟨"org1", "stream1", [], []⟩
            (initRowState demoCollab demoCfg 10000000000 "stream1" "org1").stream_schema_map
            (initRowState demoCollab demoCfg 10000000000 "stream1" "org1").stream_status.status
            (initRowState demoCollab demoCfg 10000000000 "stream1" "org1").buf
            (objInsert [("_timestamp", .num 1000000000000000000)] demoCfg.column_timestamp
              (.num 1000000000000000000))).trigger] :=
  c9_no_future_rejection demoCollab demoCfg "org1" "stream1" [] [] 10000000000
    (initRowState demoCollab demoCfg 10000000000 "stream1" "org1")
    (.obj [("_timestamp", .num 1000000000000000000)])
    [("_timestamp", .num 1000000000000000000)] 1000000000000000000 rfl rfl (by decide)

/-- C5: per row-path request at most one `Trigger` survives: the loop keeps
the LAST Some returned by `add_valid_record` (last write wins over earlier
candidates, `none` if no call returned one), the loop itself never calls
`evaluate_trigger`, and `evaluate_trigger` is called exactly once, as the
final transcript entry, immediately after the `write_file` handoff. -/
theorem c5_single_trigger_last_write_wins (c : Collab) (cfg : Config) (clk : Nat → Int)
    (now0 : Int) (stream_name org_id : String) (body : List JsonValue) (thread_id : Nat)
    (hall : allFlattenObjects c body = true) :
    ∃ st : RowState,
      rowLoop c cfg org_id stream_name (pksFor c org_id stream_name)
          (alertsFor c org_id stream_name) clk 0
          (initRowState c cfg now0 stream_name org_id) body = .ok st ∧
      processAsJson c cfg clk now0 stream_name org_id body thread_id =
        (st.events ++
          [.writeFile st.buf thread_id org_id stream_name .logs,
           .evaluateTrigger st.trigger (alertsFor c org_id stream_name)],
         .ok ⟨200, 200, "", [st.stream_status]⟩) ∧
      countEvalTrigger st.events = 0 ∧
      st.trigger = lwwFold none (avrTriggers st.events) := by
  obtain ⟨st, Δ, hrun, hev, havr, htr, hmin, hname⟩ :=
    rowLoop_spec c cfg org_id stream_name (pksFor c org_id stream_name)
      (alertsFor c org_id stream_name) clk body 0
      (initRowState c cfg now0 stream_name org_id) hall
  have hev' : st.events = Δ := by simpa [initRowState] using hev
  refine ⟨st, hrun, by simp [processAsJson, hrun], ?_, ?_⟩
  · rw [hev']; exact countEvalTrigger_eq_zero havr
  · rw [hev']; simpa [initRowState] using htr

/-- Witness for C5: two records whose `add_valid_record` calls return
triggers 1 then 2 — the loop finishes with the later trigger, hands the
buffer off first, and evaluates the single trigger once. -/
theorem c5_single_trigger_last_write_wins_witness :
    ∃ st : RowState,
      rowLoop collabC5 demoCfg "org1" "stream1"
          (pksFor collabC5 "org1" "stream1") (alertsFor collabC5 "org1" "stream1")
          (fun _ => 10000000000) 0
          (initRowState collabC5 demoCfg 10000000000 "stream1" "org1")
          [.obj [("alert", .num 1)], .obj [("alert", .num 2)]] = .ok st ∧
      processAsJson collabC5 demoCfg (fun _ => 10000000000) 10000000000 "stream1" "org1"
          [.obj [("alert", .num 1)], .obj [("alert", .num 2)]] 3 =
        (st.events ++
          [.writeFile st.buf 3 "org1" "stream1" .logs,
           .evaluateTrigger st.trigger (alertsFor collabC5 "org1" "stream1")],
         .ok ⟨200, 200, "", [st.stream_status]⟩) ∧
      countEvalTrigger st.events = 0 ∧
      st.trigger = lwwFold none (avrTriggers st.events) :=
  c5_single_trigger_last_write_wins collabC5 demoCfg (fun _ => 10000000000) 10000000000
    "stream1" "org1" [.obj [("alert", .num 1)], .obj [("alert", .num 2)]] 3 (by decide)

/-- C7 counterexample: one record stamped `3600000001` µs is accepted at
`now = 0` with a one-hour window, so the minimum resolved event time among
accepted records is `3600000001`; but the loop leaves `min_ts` at the seed
`now0 + upto = 3600000000`, because the code only ever lowers `min_ts`
below the seed — contradicting the claim that after the loop `min_ts`
equals the minimum accepted event time whenever a record was accepted. -/
theorem c7_counterexample :
    loopMinTs (rowLoop demoCollab demoCfg "org1" "stream1" [] [] (fun _ => 0) 0
        (initRowState demoCollab demoCfg 0 "stream1" "org1")
        [.obj [("_timestamp", .num 3600000001)]]) = some 3600000000 ∧
    loopAcceptedTs demoCfg (rowLoop demoCollab demoCfg "org1" "stream1" [] [] (fun _ => 0) 0
        (initRowState demoCollab demoCfg 0 "stream1" "org1")
        [.obj [("_timestamp", .num 3600000001)]]) = some [3600000001] ∧
    (3600000000 : Int) ≠ 3600000001 := ⟨rfl, rfl, by decide⟩

/-- C7 (amended): `min_ts` is seeded at `now0 + ingest_allowed_upto`; after
the loop it equals the running-minimum fold of the accepted resolved event
times over that seed (hence the seed itself when the batch is empty or all
records were rejected, and never above the seed even when all accepted
records are future-dated); and it stays request-local — the durable-buffer
handoff `write_file` receives only the buffer, thread id, organization,
stream and stream kind, not `min_ts`. -/
theorem c7_min_ts_amended (c : Collab) (cfg : Config) (clk : Nat → Int)
    (now0 : Int) (stream_name org_id : String) (body : List JsonValue) (thread_id : Nat)
    (hall : allFlattenObjects c body = true) :
    (initRowState c cfg now0 stream_name org_id).min_ts =
        now0 + cfg.ingest_allowed_upto * 3600000000 ∧
    ∃ st : RowState,
      rowLoop c cfg org_id stream_name (pksFor c org_id stream_name)
          (alertsFor c org_id stream_name) clk 0
          (initRowState c cfg now0 stream_name org_id) body = .ok st ∧
      st.min_ts = minFold (now0 + cfg.ingest_allowed_upto * 3600000000)
        (acceptedTsOf cfg st.events) ∧
      processAsJson c cfg clk now0 stream_name org_id body thread_id =
        (st.events ++
          [.writeFile st.buf thread_id org_id stream_name .logs,
           .evaluateTrigger st.trigger (alertsFor c org_id stream_name)],
         .ok ⟨200, 200, "", [st.stream_status]⟩) := by
  refine ⟨rfl, ?_⟩
  obtain ⟨st, Δ, hrun, hev, havr, htr, hmin, hname⟩ :=
    rowLoop_spec c cfg org_id stream_name (pksFor c org_id stream_name)
      (alertsFor c org_id stream_name) clk body 0
      (initRowState c cfg now0 stream_name org_id) hall
  have hev' : st.events = Δ := by simpa [initRowState] using hev
  refine ⟨st, hrun, ?_, by simp [processAsJson, hrun]⟩
  rw [hev']; simpa [initRowState, hoursMicros] using hmin

/-- Witness for the amended C7, at the counterexample input: the seed is
`3600000000` and the final `min_ts` is the fold of the accepted times over
the seed (which here stays at the seed). -/
theorem c7_min_ts_amended_witness :
    (initRowState demoCollab demoCfg 0 "stream1" "org1").min_ts =
        0 + demoCfg.ingest_allowed_upto * 3600000000 ∧
    ∃ st : RowState,
      rowLoop demoCollab demoCfg "org1" "stream1"
          (pksFor demoCollab "org1" "stream1") (alertsFor demoCollab "org1" "stream1")
          (fun _ => 0) 0 (initRowState demoCollab demoCfg 0 "stream1" "org1")
          [.obj [("_timestamp", .num 3600000001)]] = .ok st ∧
      st.min_ts = minFold (0 + demoCfg.ingest_allowed_upto * 3600000000)
        (acceptedTsOf demoCfg st.events) ∧
      processAsJson demoCollab demoCfg (fun _ => 0) 0 "stream1" "org1"
          [.obj [("_timestamp", .num 3600000001)]] 3 =
        (st.events ++
          [.writeFile st.buf 3 "org1" "stream1" .logs,
           .evaluateTrigger st.trigger (alertsFor demoCollab "org1" "stream1")],
         .ok ⟨200, 200, "", [st.stream_status]⟩) :=
  c7_min_ts_amended demoCollab demoCfg (fun _ => 0) 0 "stream1" "org1"
    [.obj [("_timestamp", .num 3600000001)]] 3 (by decide)

/-- C10: whenever the record loop finishes (i.e. every flatten result is an
object, the contract of the external flattener), the row path returns the
HTTP 200 `IngestionResponse` carrying exactly the one per-stream status
with its counters and last error — for every batch and every collaborator
behavior, record-level failures included, so failures never change the
response's status code. -/
theorem c10_row_response_always_200 (c : Collab) (cfg : Config) (clk : Nat → Int)
    (now0 : Int) (stream_name org_id : String) (body : List JsonValue) (thread_id : Nat)
    (hall : allFlattenObjects c body = true) :
    ∃ st : RowState,
      rowLoop c cfg org_id stream_name (pksFor c org_id stream_name)
          (alertsFor c org_id stream_name) clk 0
          (initRowState c cfg now0 stream_name org_id) body = .ok st ∧
      processAsJson c cfg clk now0 stream_name org_id body thread_id =
        (st.events ++
          [.writeFile st.buf thread_id org_id stream_name .logs,
           .evaluateTrigger st.trigger (alertsFor c org_id stream_name)],
         .ok ⟨200, 200, "", [st.stream_status]⟩) := by
  obtain ⟨st, Δ, hrun, hev, havr, htr, hmin, hname⟩ :=
    rowLoop_spec c cfg org_id stream_name (pksFor c org_id stream_name)
      (alertsFor c org_id stream_name) clk body 0
      (initRowState c cfg now0 stream_name org_id) hall
  exact ⟨st, hrun, by simp [processAsJson, hrun]⟩

/-- Witness for C10: a batch of two records with unparsable timestamps (both
dropped, `successful = 0`) still yields the 200 response with the single
stream status. -/
theorem c10_row_response_always_200_witness :
    ∃ st : RowState,
      rowLoop demoCollab demoCfg "org1" "stream1"
          (pksFor demoCollab "org1" "stream1") (alertsFor demoCollab "org1" "stream1")
          (fun _ => 10000000000) 0
          (initRowState demoCollab demoCfg 10000000000 "stream1" "org1")
          [.obj [("_timestamp", .str "x")], .obj [("_timestamp", .str "y")]] = .ok st ∧
      processAsJson demoCollab demoCfg (fun _ => 10000000000) 10000000000 "stream1" "org1"
          [.obj [("_timestamp", .str "x")], .obj [("_timestamp", .str "y")]] 3 =
        (st.events ++
          [.writeFile st.buf 3 "org1" "stream1" .logs,
           .evaluateTrigger st.trigger (alertsFor demoCollab "org1" "stream1")],
         .ok ⟨200, 200, "", [st.stream_status]⟩) :=
  c10_row_response_always_200 demoCollab demoCfg (fun _ => 10000000000) 10000000000
    "stream1" "org1" [.obj [("_timestamp", .str "x")], .obj [("_timestamp", .str "y")]] 3
    (by decide)

/-- C3: in the columnar path, when the stream has an existing non-empty
schema and `try_merge` of the existing and inferred schemas fails, the
request ends with the `Error matching schema` response, the transcript is
empty — no batch reaches the durable buffer and no schema is persisted. -/
theorem c3_merge_conflict_fatal_atomic (c : Collab) (cfg : Config) (ts : Int)
    (org_id stream_name : String) (body : List JsonValue) (body_size thread_id : Nat)
    (inferred ex : ASchema) (e : String)
    (hinfer : c.inferSchema body = .ok inferred)
    (hget : schemaMapGet (c.streamSchemaExists org_id stream_name .logs []).2 stream_name
      = some ex)
    (hne : ex.fields.isEmpty = false)
    (hmerge : c.tryMerge [ex, inferred] = .error e) :
    processAsArrow c cfg ts org_id stream_name body body_size thread_id =
      ([], .ok ⟨500, 400, "Error matching schema for [" ++ stream_name ++ "] : " ++ e, []⟩) := by
  simp [processAsArrow, chooseSchema, hinfer, hget, hne, hmerge]

/-- Witness for C3: a stream with existing schema `[a : Int64]` and a
conflicting inferred schema — the request errors and nothing is written or
persisted. -/
theorem c3_merge_conflict_fatal_atomic_witness :
    processAsArrow collabC3 demoCfg 5 "org1" "stream1" [.obj [("a", .num 1)]] 10 3 =
      ([], .ok ⟨500, 400,
        "Error matching schema for [" ++ "stream1" ++ "] : " ++ "incompatible data types",
        []⟩) :=
  c3_merge_conflict_fatal_atomic collabC3 demoCfg 5 "org1" "stream1" [.obj [("a", .num 1)]]
    10 3 ⟨[], []⟩ exSchemaA "incompatible data types" rfl rfl rfl rfl

/-- C4 counterexample: with `db::schema::set` failing, the columnar request
neither avoids buffering nor returns a structured error — the transcript
shows the batch was already handed to the durable buffer (`writeForSchema`)
before persistence was attempted, and the request ends in a panic (the
source `.unwrap()`s the persistence result), not an error response. -/
theorem c4_counterexample :
    processAsArrow collabC4 demoCfg 5 "org1" "stream1" [.obj [("a", .num 1)]] 10 3 =
      ([.writeForSchema 3 "org1" "stream1" .logs "2026_10_12_00" false
          ⟨[⟨"_timestamp", .int64, true⟩], []⟩
          ⟨⟨[⟨"_timestamp", .int64, true⟩], []⟩, [.int64 [5]], 1⟩ 10,
        .schemaSet "org1" "stream1" .logs
          ⟨[⟨"_timestamp", .int64, true⟩], [("created_at", "5")]⟩ (some 5) false],
       .panicked) := rfl

/-- C4 (amended): a schema-persistence failure in the columnar path (only
reachable when the stream previously had no declared fields, and with the
rebuilt columns passing `RecordBatch::try_new`'s validation — otherwise the
request panics earlier, before any write) happens AFTER the batch has been
handed to the durable buffer, and it does not produce a structured error
response: the `.unwrap()` on the persistence result makes the request end
in a panic, with the `writeForSchema` handoff already in the transcript. -/
theorem c4_persist_failure_after_write (c : Collab) (cfg : Config) (ts : Int)
    (org_id stream_name : String) (body : List JsonValue) (body_size thread_id : Nat)
    (inferred : ASchema) (batch : ABatch) (err : String)
    (hinfer : c.inferSchema body = .ok inferred)
    (hget : schemaMapGet (c.streamSchemaExists org_id stream_name .logs []).2 stream_name
      = none)
    (hdec : c.decodeBatch (insertTsField cfg inferred) (roundUptoMultipleOf64 body.length)
      body = .ok (some batch))
    (hcols : batch.columns.isEmpty = false)
    (hconf : batchConforms (insertTsField cfg inferred)
      (batch.columns.set 0 (.int64 (List.replicate batch.numRows ts))) = true)
    (hff : (c.streamSchemaExists org_id stream_name .logs []).1.has_fields = false)
    (hset : c.schemaSet org_id stream_name .logs (withCreatedAt (insertTsField cfg inferred) ts)
      (some ts) false = .error err) :
    processAsArrow c cfg ts org_id stream_name body body_size thread_id =
      ([.writeForSchema thread_id org_id stream_name .logs c.hourKeyOfNow
          cfg.wal_memory_mode_enabled (insertTsField cfg inferred)
          (replacedBatch ts (insertTsField cfg inferred) batch) body_size,
        .schemaSet org_id stream_name .logs (withCreatedAt (insertTsField cfg inferred) ts)
          (some ts) false],
       .panicked) := by
  have htn := tryNewBatch_eq_replaced ts (insertTsField cfg inferred) batch hcols hconf
  simp [processAsArrow, chooseSchema, hinfer, hget, hdec, hcols, htn, hff, hset]

/-- Witness for the amended C4, at the counterexample input. -/
theorem c4_persist_failure_after_write_witness :
    processAsArrow collabC4 demoCfg 5 "org1" "stream1" [.obj [("a", .num 1)]] 10 3 =
      ([.writeForSchema 3 "org1" "stream1" .logs collabC4.hourKeyOfNow
          demoCfg.wal_memory_mode_enabled (insertTsField demoCfg ⟨[], []⟩)
          (replacedBatch 5 (insertTsField demoCfg ⟨[], []⟩)
            ⟨insertTsField demoCfg ⟨[], []⟩, [.int64 [7]], 1⟩) 10,
        .schemaSet "org1" "stream1" .logs
          (withCreatedAt (insertTsField demoCfg ⟨[], []⟩) 5) (some 5) false],
       .panicked) :=
  c4_persist_failure_after_write collabC4 demoCfg 5 "org1" "stream1" [.obj [("a", .num 1)]]
    10 3 ⟨[], []⟩ ⟨insertTsField demoCfg ⟨[], []⟩, [.int64 [7]], 1⟩ "db failure"
    rfl rfl rfl rfl rfl rfl rfl

/-- C6: when the stream has an existing non-empty schema and the merge with
the inferred schema succeeds, the schema used for decoding, batch typing
and the durable-buffer handoff is the EXISTING one (with the canonical
timestamp field inserted at position zero only if it was missing) — the
inferred and merged schemas do not appear in the result, so inference only
served conflict detection; and if the existing schema already declares the
timestamp field, the schema used is exactly the existing schema. The
conformance hypothesis is `RecordBatch::try_new`'s validation: when it
fails (e.g. the existing schema declares `_timestamp` away from position
zero over a non-Int64 field 0), the request panics with no handoff, so no
other schema is ever handed off either. -/
theorem c6_existing_schema_authoritative (c : Collab) (cfg : Config) (ts : Int)
    (org_id stream_name : String) (body : List JsonValue) (body_size thread_id : Nat)
    (ex inferred merged : ASchema) (batch : ABatch)
    (hinfer : c.inferSchema body = .ok inferred)
    (hget : schemaMapGet (c.streamSchemaExists org_id stream_name .logs []).2 stream_name
      = some ex)
    (hne : ex.fields.isEmpty = false)
    (hmerge : c.tryMerge [ex, inferred] = .ok merged)
    (hdec : c.decodeBatch (insertTsField cfg ex) (roundUptoMultipleOf64 body.length) body
      = .ok (some batch))
    (hcols : batch.columns.isEmpty = false)
    (hconf : batchConforms (insertTsField cfg ex)
      (batch.columns.set 0 (.int64 (List.replicate batch.numRows ts))) = true)
    (hff : (c.streamSchemaExists org_id stream_name .logs []).1.has_fields = true) :
    processAsArrow c cfg ts org_id stream_name body body_size thread_id =
      ([.writeForSchema thread_id org_id stream_name .logs c.hourKeyOfNow
          cfg.wal_memory_mode_enabled (insertTsField cfg ex)
          (replacedBatch ts (insertTsField cfg ex) batch) body_size],
       .ok ⟨200, 200, "", []⟩) ∧
    (ex.fields.any (fun f => f.name = cfg.column_timestamp) = true →
      insertTsField cfg ex = ex) := by
  have htn := tryNewBatch_eq_replaced ts (insertTsField cfg ex) batch hcols hconf
  constructor
  · simp [processAsArrow, chooseSchema, hinfer, hget, hne, hmerge, hdec, hcols, htn, hff]
  · intro h
    simp [insertTsField, h]

/-- Witness for C6: existing schema `[_timestamp : Int64, a : Utf8]`, merge
succeeds — the handoff carries exactly the existing schema. -/
theorem c6_existing_schema_authoritative_witness :
    processAsArrow collabC6 demoCfg 5 "org1" "stream1" [.obj [("a", .num 1)]] 10 3 =
      ([.writeForSchema 3 "org1" "stream1" .logs collabC6.hourKeyOfNow
          demoCfg.wal_memory_mode_enabled (insertTsField demoCfg exSchemaTs)
          (replacedBatch 5 (insertTsField demoCfg exSchemaTs)
            ⟨insertTsField demoCfg exSchemaTs, [.int64 [7], .otherCol .utf8 0 1], 1⟩) 10],
       .ok ⟨200, 200, "", []⟩) ∧
    (exSchemaTs.fields.any (fun f => f.name = demoCfg.column_timestamp) = true →
      insertTsField demoCfg exSchemaTs = exSchemaTs) :=
  c6_existing_schema_authoritative collabC6 demoCfg 5 "org1" "stream1"
    [.obj [("a", .num 1)]] 10 3 exSchemaTs ⟨[], []⟩ ⟨[], []⟩
    ⟨insertTsField demoCfg exSchemaTs, [.int64 [7], .otherCol .utf8 0 1], 1⟩
    rfl rfl rfl rfl rfl rfl rfl rfl

/-- C8: for a columnar request whose decoder yields a batch with one row per
record (its contract: the batch size is rounded up to at least the record
count) and whose rebuilt columns pass `RecordBatch::try_new`'s validation
(otherwise the request panics at the `.unwrap()` and produces no batch at
all), the batch handed to the durable buffer has column zero overwritten
with the single request-level timestamp `ts`, replicated across all
`body.length` rows — whatever per-record timestamps were decoded. -/
theorem c8_uniform_batch_timestamp (c : Collab) (cfg : Config) (ts : Int)
    (org_id stream_name : String) (body : List JsonValue) (body_size thread_id : Nat)
    (inferred schema0 : ASchema) (batch : ABatch)
    (hinfer : c.inferSchema body = .ok inferred)
    (hchoose : chooseSchema c (c.streamSchemaExists org_id stream_name .logs []).2
      stream_name inferred = .ok schema0)
    (hdec : c.decodeBatch (insertTsField cfg schema0) (roundUptoMultipleOf64 body.length)
      body = .ok (some batch))
    (hrows : batch.numRows = body.length)
    (hcols : batch.columns.isEmpty = false)
    (hconf : batchConforms (insertTsField cfg schema0)
      (batch.columns.set 0 (.int64 (List.replicate batch.numRows ts))) = true) :
    ∃ (rest : List Event) (out : Outcome),
      processAsArrow c cfg ts org_id stream_name body body_size thread_id =
        (.writeForSchema thread_id org_id stream_name .logs c.hourKeyOfNow
            cfg.wal_memory_mode_enabled (insertTsField cfg schema0)
            (replacedBatch ts (insertTsField cfg schema0) batch) body_size :: rest,
         out) ∧
      (replacedBatch ts (insertTsField cfg schema0) batch).columns.head? =
        some (.int64 (List.replicate body.length ts)) := by
  have htn := tryNewBatch_eq_replaced ts (insertTsField cfg schema0) batch hcols hconf
  have hhead : (replacedBatch ts (insertTsField cfg schema0) batch).columns.head? =
      some (.int64 (List.replicate body.length ts)) := by
    rw [← hrows]
    simp [replacedBatch, head?_set_zero _ _ hcols]
  cases hff : (c.streamSchemaExists org_id stream_name .logs []).1.has_fields with
  | true =>
    exact ⟨[], .ok ⟨200, 200, "", []⟩,
      by simp [processAsArrow, hinfer, hchoose, hdec, hcols, htn, hff], hhead⟩
  | false =>
    rcases hset : c.schemaSet org_id stream_name .logs
        (withCreatedAt (insertTsField cfg schema0) ts) (some ts) false with err | u
    · exact ⟨[.schemaSet org_id stream_name .logs
          (withCreatedAt (insertTsField cfg schema0) ts) (some ts) false], .panicked,
        by simp [processAsArrow, hinfer, hchoose, hdec, hcols, htn, hff, hset], hhead⟩
    · exact ⟨[.schemaSet org_id stream_name .logs
          (withCreatedAt (insertTsField cfg schema0) ts) (some ts) false],
        .ok ⟨200, 200, "", []⟩,
        by simp [processAsArrow, hinfer, hchoose, hdec, hcols, htn, hff, hset], hhead⟩

/-- Witness for C8: one record, request timestamp 5 — column zero of the
handed-off batch is `[5]`, one entry per record. -/
theorem c8_uniform_batch_timestamp_witness :
    ∃ (rest : List Event) (out : Outcome),
      processAsArrow demoCollab demoCfg 5 "org1" "stream1" [.obj [("a", .num 1)]] 10 3 =
        (.writeForSchema 3 "org1" "stream1" .logs demoCollab.hourKeyOfNow
            demoCfg.wal_memory_mode_enabled (insertTsField demoCfg ⟨[], []⟩)
            (replacedBatch 5 (insertTsField demoCfg ⟨[], []⟩)
              ⟨insertTsField demoCfg ⟨[], []⟩, [.int64 [7]], 1⟩) 10 :: rest,
         out) ∧
      (replacedBatch 5 (insertTsField demoCfg ⟨[], []⟩)
          ⟨insertTsField demoCfg ⟨[], []⟩, [.int64 [7]], 1⟩).columns.head? =
        some (.int64 (List.replicate 1 5)) :=
  c8_uniform_batch_timestamp demoCollab demoCfg 5 "org1" "stream1" [.obj [("a", .num 1)]]
    10 3 ⟨[], []⟩ ⟨[], []⟩ ⟨insertTsField demoCfg ⟨[], []⟩, [.int64 [7]], 1⟩
    rfl rfl rfl rfl rfl rfl
